import Mathlib

/-!
Verification development for the Stat Synthesis Engine of the
trading-card-generator repository (src/Backend/main.py).

The Python source is shallowly embedded below.  Conventions:
* Python `float` values appearing in the engine are exact decimal literals
  (0.3, 0.8, 1.3, …); they are modelled as exact rationals (`ℚ`).  Because
  the library's `Rat.mul`, `Rat.add` and `OfScientific` are irreducible to
  the kernel, the embedding writes a decimal literal `0.x` as `mkRat x 10`
  (the same rational number) and multiplies/adds through the
  kernel-reducible wrappers `ratMul`/`ratAdd`, which `ratMul_eq`/`ratAdd_eq`
  prove equal to `*` and `+` on `ℚ`.
* Python `int(x)` (truncation toward zero) is `pyInt`.
* `random.random()` draws are modelled as rational inputs,
  `random.randint(a, b)` as `a + draw % (b - a + 1)` for a natural draw,
  and `random.choice(lst)` as indexing by `draw % lst.length`; the full
  sequence of draws a synthesis run consumes is the `RngDraws` record.
* Python dicts used as keyword/template tables are association lists in
  insertion order; `dict.get(k, d)` is `(dictGet l k).getD d`, and the
  first-match-wins loops over them are `firstMatch` / `firstMatchAny`.
* Python's `kw in s` substring test is `containsKw`, `s.lower()` is
  `toLowerStr`, `s.split()` is `pyWords`, `str.title()` on the one-word
  element names is `pyTitle`.
-/

/-- Does `p` occur as a prefix of `l`? (pattern is the first argument). -/
def hasPrefixL : List Char → List Char → Bool
  | [], _ => true
  | _ :: _, [] => false
  | a :: as, b :: bs => a == b && hasPrefixL as bs

/-- Does `sub` occur as a contiguous sublist of the second argument? -/
def substrAux (sub : List Char) : List Char → Bool
  | [] => sub.isEmpty
  | c :: cs => hasPrefixL sub (c :: cs) || substrAux sub cs

/-- Python's `kw in s` substring containment test on strings. -/
def containsKw (s kw : String) : Bool :=
  substrAux kw.data s.data

/-- Python's `str.lower()` (ASCII is all the engine's tables use). -/
def toLowerStr (s : String) : String :=
  ⟨s.data.map Char.toLower⟩

/-- Python's `str.title()` restricted to the single lowercase words it is
applied to in the source (capitalises the first character). -/
def pyTitle (s : String) : String :=
  match s.data with
  | [] => s
  | c :: cs => ⟨Char.toUpper c :: cs⟩

/-- Helper for `pyWords`: split a character list on whitespace,
dropping empty tokens, accumulator holds the current token reversed. -/
def splitWsAux : List Char → List Char → List (List Char)
  | [], acc => if acc.isEmpty then [] else [acc.reverse]
  | c :: cs, acc =>
      if c.isWhitespace then
        (if acc.isEmpty then splitWsAux cs [] else acc.reverse :: splitWsAux cs [])
      else splitWsAux cs (c :: acc)

/-- Python's `s.split()`: split on whitespace runs, no empty tokens. -/
def pyWords (s : String) : List String :=
  (splitWsAux s.data []).map (fun l => ⟨l⟩)

/-- Kernel-reducible multiplication on `ℚ` (proved equal to `*` below). -/
def ratMul (a b : ℚ) : ℚ :=
  mkRat (a.num * b.num) (a.den * b.den)

/-- Kernel-reducible addition on `ℚ` (proved equal to `+` below). -/
def ratAdd (a b : ℚ) : ℚ :=
  mkRat (a.num * b.den + b.num * a.den) (a.den * b.den)

/-- Python's `int(x)` on a float: truncation toward zero (exact-rational model). -/
def pyInt (q : ℚ) : ℤ :=
  if 0 ≤ q then q.floor else q.ceil

/-- Python's `random.randint(a, b)` (both ends inclusive, `a ≤ b`):
the draw index selects one of the `b - a + 1` possible values. -/
def pyRandint (a b : Nat) (draw : Nat) : Nat :=
  a + draw % (b - a + 1)

/-- Python's `random.choice(l)` for the nonempty lists the engine uses:
the draw index selects one of the `l.length` elements. -/
def pyChoice {α : Type} (l : List α) (d : α) (draw : Nat) : α :=
  l.getD (draw % l.length) d

/-- Python's `dict.get(k)` on an association list in insertion order. -/
def dictGet {α : Type} (l : List (String × α)) (k : String) : Option α :=
  (l.find? (fun p => p.1 == k)).map (fun p => p.2)

/-- First-match-wins scan of a keyword → value table
(the `for indicator, multiplier in size_indicators.items(): … break` loop). -/
def firstMatch {α : Type} (pl : String) : List (String × α) → Option α
  | [] => none
  | e :: rest => if containsKw pl e.1 then some e.2 else firstMatch pl rest

/-- First-match-wins scan of a name → keyword-set table
(the `if any(keyword in prompt_lower for keyword in keywords): … break` loops). -/
def firstMatchAny (pl : String) : List (String × List String) → Option String
  | [] => none
  | e :: rest =>
      if e.2.any (fun kw => containsKw pl kw) then some e.1 else firstMatchAny pl rest

/-! ## Data model (main.py lines 40-51, 183-189, 224-228) -/

/-- `Attack` pydantic model (main.py lines 40-43). -/
structure Attack where
  name : String
  damage : ℤ
  description : String
deriving DecidableEq

/-- `CardMetadata` pydantic model (main.py lines 45-51); synthesis always
populates every field, so the `Optional` wrappers are dropped. -/
structure CardMetadata where
  name : String
  hp : ℤ
  type : String
  rarity : String
  flavorText : String
  attacks : List Attack
deriving DecidableEq

/-- The dict returned by `extract_creature_characteristics` (lines 224-228). -/
structure Characteristics where
  creature_type : String
  combat_styles : List String
  descriptors : List String
deriving DecidableEq

/-- The dict returned by `simulate_vision_analysis` (lines 183-189). -/
structure VisionAnalysis where
  apparent_power_level : ℚ
  detected_element : String
  complexity_score : Nat
  creature_characteristics : Characteristics
  original_prompt : String
deriving DecidableEq

/-- The sequence of RNG draws one synthesis run consumes, in call order
inside `generate_stats_from_analysis`:
`random.random()` for the HP coin, the `randint` draw for base HP,
the two `random.choice` draws of `generate_creature_name`, then
`generate_contextual_attacks`' primary `choice`, secondary `random.random()`
coin, secondary `choice`, utility `choice`, and finally
`generate_flavor_text`'s `choice`. -/
structure RngDraws where
  hpCoin : ℚ
  hpRaw : Nat
  namePre : Nat
  nameSuf : Nat
  primaryDraw : Nat
  secondaryCoin : ℚ
  secondaryDraw : Nat
  utilityDraw : Nat
  flavorDraw : Nat
deriving DecidableEq

/-! ## Keyword tables (main.py lines 152-172, 196-222) -/

/-- `size_indicators` dict (lines 152-156), in insertion order; each
`mkRat x 10` is the source's decimal literal `0.x`/`x/10` exactly. -/
def size_indicators : List (String × ℚ) :=
  [("tiny", mkRat 3 10), ("small", mkRat 5 10), ("young", mkRat 6 10),
   ("medium", mkRat 7 10), ("large", mkRat 12 10), ("huge", mkRat 15 10),
   ("massive", mkRat 18 10), ("giant", mkRat 20 10), ("ancient", mkRat 16 10),
   ("elder", mkRat 14 10), ("baby", mkRat 4 10), ("mighty", mkRat 13 10)]

/-- `element_keywords` dict (lines 165-172), in insertion order. -/
def element_keywords : List (String × List String) :=
  [("fire", ["fire", "flame", "lava", "magma", "ember", "phoenix", "dragon"]),
   ("water", ["water", "ice", "frost", "ocean", "sea", "aquatic", "whale"]),
   ("earth", ["rock", "stone", "earth", "mountain", "crystal", "gem"]),
   ("air", ["wind", "storm", "cloud", "lightning", "thunder", "eagle"]),
   ("dark", ["shadow", "dark", "void", "nightmare", "demon", "evil"]),
   ("light", ["light", "holy", "angel", "divine", "celestial", "bright"])]

/-- `creature_types` dict (lines 196-205), in insertion order. -/
def creature_types : List (String × List String) :=
  [("dragon", ["dragon", "drake", "wyrm"]),
   ("wolf", ["wolf", "dire wolf", "fenrir"]),
   ("bird", ["eagle", "phoenix", "hawk", "raven"]),
   ("beast", ["tiger", "lion", "bear", "panther"]),
   ("elemental", ["elemental", "spirit", "wisp"]),
   ("demon", ["demon", "devil", "fiend"]),
   ("angel", ["angel", "seraph", "cherub"]),
   ("undead", ["skeleton", "zombie", "lich", "ghost"])]

/-- Combat-style cue words (line 215). -/
def slashing_cues : List String := ["claws", "talons", "sharp"]

/-- Fire-style cue words (line 217). -/
def fire_cues : List String := ["fire", "flame", "burning"]

/-- Magic-style cue words (line 219). -/
def magic_cues : List String := ["magic", "spell", "enchanted"]

/-- Biting-style cue words (line 221). -/
def biting_cues : List String := ["bite", "teeth", "fangs"]

/-- Complexity-bonus keywords (line 181). -/
def bonus_words : List String := ["legendary", "ancient", "mythical"]

/-! ## Classification (main.py lines 143-228) -/

/-- Lines 158-162: first matching size keyword in table order, default 1.0. -/
def power_multiplier_of (prompt : String) : ℚ :=
  (firstMatch (toLowerStr prompt) size_indicators).getD 1

/-- Lines 174-178: first matching element in table order (title-cased),
default "Fire". -/
def detected_element_of (prompt : String) : String :=
  match firstMatchAny (toLowerStr prompt) element_keywords with
  | some e => pyTitle e
  | none => "Fire"

/-- Line 181: word count plus a +2 bonus if any of `bonus_words` occurs. -/
def complexity_score_of (prompt : String) : Nat :=
  (pyWords prompt).length +
    (if bonus_words.any (fun w => containsKw (toLowerStr prompt) w) then 2 else 0)

/-- Lines 214-222: accumulate all matching combat styles in detection order. -/
def combat_styles_of (pl : String) : List String :=
  (if slashing_cues.any (fun w => containsKw pl w) then ["slashing"] else []) ++
  (if fire_cues.any (fun w => containsKw pl w) then ["fire"] else []) ++
  (if magic_cues.any (fun w => containsKw pl w) then ["magic"] else []) ++
  (if biting_cues.any (fun w => containsKw pl w) then ["biting"] else [])

/-- `extract_creature_characteristics` (lines 191-228). -/
def extract_creature_characteristics (prompt : String) : Characteristics :=
  let pl := toLowerStr prompt
  let detected_type := (firstMatchAny pl creature_types).getD "beast"
  let styles := combat_styles_of pl
  ⟨detected_type,
   if styles = [] then ["physical"] else styles,
   (pyWords pl).filter (fun w => w.length > 4)⟩

/-- `simulate_vision_analysis` (lines 143-189); the artificial
`asyncio.sleep` is outside the engine contract, and `image_url` is never
read by the body. -/
def simulate_vision_analysis (_image_url prompt : String) : VisionAnalysis :=
  ⟨power_multiplier_of prompt, detected_element_of prompt, complexity_score_of prompt,
   extract_creature_characteristics prompt, prompt⟩

/-! ## Attack templates (main.py lines 321-361) -/

/-- An attack template: name, base damage, description. -/
abbrev AttackTpl := String × ℤ × String

/-- Fire entry of `attack_templates` (lines 322-327). -/
def Fire_templates : List (String × List AttackTpl) :=
  [("slashing", [("Flame Claw", 35, "Slashes with burning claws")]),
   ("fire", [("Inferno Blast", 45, "Unleashes a torrent of flames")]),
   ("magic", [("Fire Storm", 40, "Conjures a magical fire storm")]),
   ("biting", [("Ember Bite", 30, "Bites with flame-wreathed fangs")])]

/-- Water entry of `attack_templates` (lines 328-333). -/
def Water_templates : List (String × List AttackTpl) :=
  [("slashing", [("Ice Claw", 32, "Strikes with frozen talons")]),
   ("fire", [("Steam Burst", 38, "Superheated water explosion")]),
   ("magic", [("Tidal Wave", 42, "Summons a crushing wave")]),
   ("biting", [("Frost Bite", 28, "Freezing bite that slows enemies")])]

/-- Earth entry of `attack_templates` (lines 334-338). -/
def Earth_templates : List (String × List AttackTpl) :=
  [("slashing", [("Stone Claw", 38, "Cuts with razor-sharp stone")]),
   ("magic", [("Earthquake", 50, "Shakes the ground violently")]),
   ("physical", [("Boulder Throw", 45, "Hurls massive rocks")])]

/-- Air entry of `attack_templates` (lines 339-343). -/
def Air_templates : List (String × List AttackTpl) :=
  [("slashing", [("Wind Blade", 35, "Cuts with compressed air")]),
   ("magic", [("Lightning Strike", 48, "Calls down electric fury")]),
   ("physical", [("Gust Slam", 40, "Powerful wind attack")])]

/-- Dark entry of `attack_templates` (lines 344-348). -/
def Dark_templates : List (String × List AttackTpl) :=
  [("slashing", [("Shadow Claw", 36, "Strikes from darkness")]),
   ("magic", [("Void Drain", 25, "Drains life force from enemy")]),
   ("physical", [("Terror Strike", 42, "Frightening physical assault")])]

/-- Light entry of `attack_templates` (lines 349-353). -/
def Light_templates : List (String × List AttackTpl) :=
  [("slashing", [("Radiant Slash", 38, "Cuts with holy light")]),
   ("magic", [("Divine Ray", 44, "Blasts with pure light")]),
   ("physical", [("Blessing Strike", 35, "Heals self while attacking")])]

/-- `attack_templates` dict (lines 321-354), in insertion order. -/
def attack_templates : List (String × List (String × List AttackTpl)) :=
  [("Fire", Fire_templates), ("Water", Water_templates), ("Earth", Earth_templates),
   ("Air", Air_templates), ("Dark", Dark_templates), ("Light", Light_templates)]

/-- The generic fallback attack template (line 369). -/
def generic_attack : AttackTpl := ("Strike", 30, "Basic attack")

/-- `utility_attacks` dict (lines 357-361), entries in insertion order
(heal, shield, buff); its heal description interpolates `hp // 5`. -/
def utility_attacks (hp : ℤ) : List AttackTpl :=
  [("Regenerate", 0, "Restores " ++ toString (Int.fdiv hp 5) ++ " HP"),
   ("Fortify", 0, "Reduces next attack by 50%"),
   ("Power Up", 0, "Next attack deals double damage")]

/-- `damage_multiplier` dict (line 374): Common 0.9, Uncommon 1.0, Rare 1.1,
Epic 1.2, Legendary 1.3. -/
def damage_multiplier_table : List (String × ℚ) :=
  [("Common", mkRat 9 10), ("Uncommon", 1), ("Rare", mkRat 11 10),
   ("Epic", mkRat 12 10), ("Legendary", mkRat 13 10)]

/-! ## Attack generation (main.py lines 314-397) -/

/-- Line 367: `combat_styles[0] if combat_styles else "physical"`. -/
def primary_style_of (ch : Characteristics) : String :=
  ch.combat_styles.headD "physical"

/-- Line 368: `attack_templates.get(element, attack_templates["Fire"])`. -/
def resolve_element_attacks (element : String) : List (String × List AttackTpl) :=
  (dictGet attack_templates element).getD Fire_templates

/-- Line 369: style lookup with fallback to "physical", then to the generic. -/
def resolve_style_attacks (ea : List (String × List AttackTpl)) (style : String) :
    List AttackTpl :=
  (dictGet ea style).getD ((dictGet ea "physical").getD [generic_attack])

/-- The primary attack's resolved template list (`style_attacks`, line 369). -/
def style_attacks_of (ch : Characteristics) (element : String) : List AttackTpl :=
  resolve_style_attacks (resolve_element_attacks element) (primary_style_of ch)

/-- Line 380: `combat_styles[1:] if len(combat_styles) > 1 else ["magic"]`. -/
def secondary_styles_of (combat_styles : List String) : List String :=
  if combat_styles.length > 1 then combat_styles.drop 1 else ["magic"]

/-- Line 382: `secondary_style = secondary_styles[0]`. -/
def secondary_style_of (ch : Characteristics) : String :=
  (secondary_styles_of ch.combat_styles).headD "magic"

/-- Line 383: `element_attacks.get(secondary_style, style_attacks)` — note the
default is the PRIMARY attack's resolved list, not the physical list. -/
def secondary_attacks_of (ch : Characteristics) (element : String) : List AttackTpl :=
  (dictGet (resolve_element_attacks element) (secondary_style_of ch)).getD
    (style_attacks_of ch element)

/-- Line 374: rarity damage multiplier (rarity is always one of the five keys,
so the `getD` default is never taken). -/
def damage_mult_of (rarity : String) : ℚ :=
  (dictGet damage_multiplier_table rarity).getD 1

/-- Lines 372-376: primary attack built from a chosen template,
damage `max(15, int(base_damage * damage_multiplier))`. -/
def mk_primary (t : AttackTpl) (m : ℚ) : Attack :=
  ⟨t.1, max 15 (pyInt (ratMul (t.2.1 : ℚ) m)), t.2.2⟩

/-- Lines 385-387: secondary offensive attack built from a chosen template,
damage `max(10, int(base_damage * damage_multiplier * 0.8))`. -/
def mk_secondary (t : AttackTpl) (m : ℚ) : Attack :=
  ⟨t.1, max 10 (pyInt (ratMul (ratMul (t.2.1 : ℚ) m) (mkRat 8 10))), t.2.2⟩

/-- Lines 389-391: utility attack taken verbatim from the table. -/
def mk_utility (t : AttackTpl) : Attack :=
  ⟨t.1, t.2.1, t.2.2⟩

/-- The fallback filler attack (line 395). -/
def basic_strike : Attack :=
  ⟨"Basic Strike", 25, "A simple but effective attack"⟩

/-- `generate_contextual_attacks` (lines 314-397); `mkRat 7 10` is the
source's `0.7` branch constant. -/
def generate_contextual_attacks (ch : Characteristics) (element : String) (hp : ℤ)
    (rarity : String) (r : RngDraws) : List Attack :=
  let style_attacks := style_attacks_of ch element
  let damage_multiplier := damage_mult_of rarity
  let attacks1 : List Attack :=
    if style_attacks = [] then []
    else [mk_primary (pyChoice style_attacks generic_attack r.primaryDraw) damage_multiplier]
  let attacks2 : List Attack :=
    if r.secondaryCoin < mkRat 7 10 then
      if secondary_styles_of ch.combat_styles = [] then attacks1
      else if secondary_attacks_of ch element = [] then attacks1
      else attacks1 ++
        [mk_secondary (pyChoice (secondary_attacks_of ch element) generic_attack r.secondaryDraw)
          damage_multiplier]
    else attacks1 ++
      [mk_utility (pyChoice (utility_attacks hp) ("Regenerate", 0, "") r.utilityDraw)]
  let attacks3 := if attacks2.length < 2 then attacks2 ++ [basic_strike] else attacks2
  attacks3.take 2

/-! ## Name and flavor generation (main.py lines 281-312, 399-433) -/

/-- `element_prefixes` dict (lines 288-295). -/
def element_prefixes : List (String × List String) :=
  [("Fire", ["Flame", "Ember", "Blaze", "Inferno", "Cinder"]),
   ("Water", ["Frost", "Ice", "Wave", "Tide", "Storm"]),
   ("Earth", ["Stone", "Rock", "Crystal", "Granite", "Iron"]),
   ("Air", ["Wind", "Storm", "Thunder", "Lightning", "Gale"]),
   ("Dark", ["Shadow", "Void", "Night", "Dread", "Gloom"]),
   ("Light", ["Dawn", "Radiant", "Celestial", "Divine", "Bright"])]

/-- `type_suffixes` dict (lines 298-307). -/
def type_suffixes : List (String × List String) :=
  [("dragon", ["drake", "wyrm", "wing", "scale", "claw"]),
   ("wolf", ["fang", "howl", "pack", "moon", "wild"]),
   ("bird", ["wing", "talon", "soar", "sky", "flight"]),
   ("beast", ["claw", "roar", "hunt", "prowl", "fierce"]),
   ("elemental", ["spirit", "essence", "force", "energy", "core"]),
   ("demon", ["spawn", "fiend", "terror", "doom", "bane"]),
   ("angel", ["wing", "light", "grace", "holy", "divine"]),
   ("undead", ["bone", "soul", "wraith", "specter", "shade"])]

/-- `generate_creature_name` (lines 281-312); note `descriptors` is fetched
by the source but never used. -/
def generate_creature_name (ch : Characteristics) (element : String) (r : RngDraws) :
    String :=
  let p := pyChoice ((dictGet element_prefixes element).getD ["Ancient"]) "Ancient" r.namePre
  let s := pyChoice ((dictGet type_suffixes ch.creature_type).getD ["beast"]) "beast" r.nameSuf
  p ++ s

/-- The `beast` flavor-template list (lines 420-424), also the default for
archetypes absent from `flavor_templates`. -/
def beast_flavor : List String :=
  ["A fierce predator that rules its territory with strength.",
   "Its roar can be heard for miles, warning others to stay away.",
   "Perfectly adapted to survive in the harshest conditions."]

/-- `flavor_templates` dict (lines 404-430): only dragon, wolf, bird, beast
and elemental are mapped. -/
def flavor_templates : List (String × List String) :=
  [("dragon",
    ["Ancient and wise, this dragon commands respect from all who encounter it.",
     "Born from the heart of a volcano, its rage burns eternal.",
     "Legends speak of its hoard hidden deep in mountain caves."]),
   ("wolf",
    ["A lone hunter that stalks its prey through moonlit forests.",
     "Leader of the pack, feared by all woodland creatures.",
     "Its howl echoes through the night, calling its kin to hunt."]),
   ("bird",
    ["Soaring high above the clouds, it surveys its domain below.",
     "Its keen eyes miss nothing as it patrols the skies.",
     "Graceful in flight, deadly when it strikes."]),
   ("beast", beast_flavor),
   ("elemental",
    ["A manifestation of pure elemental energy given form.",
     "It exists between the physical and spiritual realms.",
     "Ancient magic binds this creature to the natural world."])]

/-- `generate_flavor_text` (lines 399-433); `original_prompt` is accepted but
unused, exactly as in the source. -/
def generate_flavor_text (ch : Characteristics) (_original_prompt : String)
    (r : RngDraws) : String :=
  let templates := (dictGet flavor_templates ch.creature_type).getD beast_flavor
  pyChoice templates "" r.flavorDraw

/-! ## Stat synthesis (main.py lines 230-279) -/

/-- Lines 238-241: weighted coin against 0.8, then the matching `randint`
range. -/
def base_hp_of (r : RngDraws) : Nat :=
  if r.hpCoin < mkRat 8 10 then pyRandint 40 100 r.hpRaw else pyRandint 100 150 r.hpRaw

/-- Line 244: `max(20, min(150, int(base_hp * power_level)))`. -/
def final_hp_of (a : VisionAnalysis) (r : RngDraws) : ℤ :=
  max 20 (min 150 (pyInt (ratMul (base_hp_of r : ℚ) a.apparent_power_level)))

/-- Lines 247-256: the fixed rarity thresholds, highest first. -/
def rarityOfScore (s : ℚ) : String :=
  if s ≥ 12 then "Legendary"
  else if s ≥ 9 then "Epic"
  else if s ≥ 6 then "Rare"
  else if s ≥ 4 then "Uncommon"
  else "Common"

/-- Line 248: `rarity_score = complexity + (power_level * 2)`, then the
threshold chain. -/
def rarity_of (a : VisionAnalysis) : String :=
  rarityOfScore (ratAdd (a.complexity_score : ℚ) (ratMul a.apparent_power_level 2))

/-- `generate_stats_from_analysis` (lines 230-279). -/
def generate_stats_from_analysis (a : VisionAnalysis) (r : RngDraws) : CardMetadata :=
  ⟨generate_creature_name a.creature_characteristics a.detected_element r,
   final_hp_of a r,
   a.detected_element,
   rarity_of a,
   generate_flavor_text a.creature_characteristics a.original_prompt r,
   generate_contextual_attacks a.creature_characteristics a.detected_element
     (final_hp_of a r) (rarity_of a) r⟩

/-- The full engine entry point: `analyze_image_and_generate_stats`
(lines 129-141) with the unused image reference fixed to the empty string. -/
def synthesize (prompt : String) (r : RngDraws) : CardMetadata :=
  generate_stats_from_analysis (simulate_vision_analysis "" prompt) r

/-! ## Statement helpers (not part of the source) -/

/-- Rank of a rarity tier in the order Common < Uncommon < Rare < Epic <
Legendary (statement helper for monotonicity). -/
def rarityRank : String → Nat
  | "Uncommon" => 1
  | "Rare" => 2
  | "Epic" => 3
  | "Legendary" => 4
  | _ => 0

/-- Fallback attack used only as the `getD` default inside statements. -/
def dfltAtk : Attack := ⟨"", 0, ""⟩

/-- Replace only the `descriptors` field of an analysis (statement helper). -/
def withDescriptors (a : VisionAnalysis) (d : List String) : VisionAnalysis :=
  ⟨a.apparent_power_level, a.detected_element, a.complexity_score,
   ⟨a.creature_characteristics.creature_type, a.creature_characteristics.combat_styles, d⟩,
   a.original_prompt⟩

/-! ## Generic helper lemmas -/

theorem ratMul_eq (a b : ℚ) : ratMul a b = a * b := by
  unfold ratMul
  rw [Rat.mkRat_eq_div]
  push_cast
  rw [← div_mul_div_comm, Rat.num_div_den, Rat.num_div_den]

theorem ratAdd_eq (a b : ℚ) : ratAdd a b = a + b := by
  unfold ratAdd
  have ha : ((a.den : ℚ)) ≠ 0 := by exact_mod_cast a.den_nz
  have hb : ((b.den : ℚ)) ≠ 0 := by exact_mod_cast b.den_nz
  rw [Rat.mkRat_eq_div]
  push_cast
  rw [mul_comm ((b.num : ℚ)) ((a.den : ℚ)), ← div_add_div _ _ ha hb,
     Rat.num_div_den, Rat.num_div_den]

theorem getD_mem {α : Type} :
    ∀ (l : List α) (i : Nat) (d : α), i < l.length → l.getD i d ∈ l
  | a :: l, 0, d, _ => by simp
  | a :: l, i + 1, d, h => by
      have ih := getD_mem l i d (by simpa [Nat.succ_lt_succ_iff] using h)
      simpa using Or.inr ih

theorem pyChoice_mem {α : Type} (l : List α) (d : α) (n : Nat) (h : l ≠ []) :
    pyChoice l d n ∈ l := by
  have hl : 0 < l.length := List.length_pos.mpr h
  exact getD_mem l (n % l.length) d (Nat.mod_lt _ hl)

theorem dictGet_some_mem {α : Type} (l : List (String × α)) (k : String) (v : α)
    (h : dictGet l k = some v) : ∃ p, p ∈ l ∧ p.2 = v := by
  unfold dictGet at h
  cases hf : l.find? (fun p => p.1 == k) with
  | none => rw [hf] at h; simp at h
  | some p =>
      rw [hf] at h
      simp only [Option.map_some'] at h
      exact ⟨p, List.mem_of_find?_eq_some hf, by injection h⟩

theorem firstMatch_eq_none {α : Type} (pl : String) (tbl : List (String × α))
    (h : ∀ kv ∈ tbl, containsKw pl kv.1 = false) : firstMatch pl tbl = none := by
  induction tbl with
  | nil => rfl
  | cons hd tl ih =>
      unfold firstMatch
      rw [h hd (List.mem_cons_self hd tl)]
      simpa using ih fun kv hk => h kv (List.mem_cons_of_mem hd hk)

theorem firstMatch_eq_of_split {α : Type} (pl : String) (pre : List (String × α))
    (kv : String × α) (post : List (String × α))
    (hm : containsKw pl kv.1 = true)
    (hpre : ∀ e ∈ pre, containsKw pl e.1 = false) :
    firstMatch pl (pre ++ kv :: post) = some kv.2 := by
  induction pre with
  | nil =>
      rw [List.nil_append]
      unfold firstMatch
      rw [hm]
      rfl
  | cons hd tl ih =>
      show firstMatch pl (hd :: (tl ++ kv :: post)) = some kv.2
      unfold firstMatch
      rw [hpre hd (List.mem_cons_self hd tl)]
      simpa using ih fun e he => hpre e (List.mem_cons_of_mem hd he)

theorem firstMatchAny_eq_none (pl : String) (tbl : List (String × List String))
    (h : ∀ p ∈ tbl, ∀ kw ∈ p.2, containsKw pl kw = false) :
    firstMatchAny pl tbl = none := by
  induction tbl with
  | nil => rfl
  | cons hd tl ih =>
      unfold firstMatchAny
      have hany : hd.2.any (fun kw => containsKw pl kw) = false := by
        rw [List.any_eq_false]
        intro kw hk
        simp [h hd (List.mem_cons_self hd tl) kw hk]
      rw [hany]
      simpa using ih fun p hp kw hk => h p (List.mem_cons_of_mem hd hp) kw hk

/-! ## Nonemptiness facts about the attack-template tables -/

theorem values_ok :
    ∀ p ∈ attack_templates, ∀ q ∈ p.2, q.2 ≠ ([] : List AttackTpl) := by decide

theorem fire_ok : ∀ q ∈ Fire_templates, q.2 ≠ ([] : List AttackTpl) := by decide

theorem resolve_element_ok (element : String) :
    ∀ q ∈ resolve_element_attacks element, q.2 ≠ ([] : List AttackTpl) := by
  unfold resolve_element_attacks
  cases h : dictGet attack_templates element with
  | none => simpa using fire_ok
  | some t =>
      obtain ⟨p, hp, hv⟩ := dictGet_some_mem _ _ _ h
      simpa [hv] using values_ok p hp

theorem resolve_style_attacks_ne (ea : List (String × List AttackTpl))
    (hok : ∀ q ∈ ea, q.2 ≠ ([] : List AttackTpl)) (style : String) :
    resolve_style_attacks ea style ≠ [] := by
  unfold resolve_style_attacks
  cases h1 : dictGet ea style with
  | some l =>
      obtain ⟨p, hp, hv⟩ := dictGet_some_mem _ _ _ h1
      simpa [hv] using hok p hp
  | none =>
      cases h2 : dictGet ea "physical" with
      | some l =>
          obtain ⟨p, hp, hv⟩ := dictGet_some_mem _ _ _ h2
          simpa [hv] using hok p hp
      | none => simp

theorem style_attacks_of_ne (ch : Characteristics) (element : String) :
    style_attacks_of ch element ≠ [] :=
  resolve_style_attacks_ne _ (resolve_element_ok element) _

theorem secondary_attacks_of_ne (ch : Characteristics) (element : String) :
    secondary_attacks_of ch element ≠ [] := by
  unfold secondary_attacks_of
  cases h : dictGet (resolve_element_attacks element) (secondary_style_of ch) with
  | some l =>
      obtain ⟨p, hp, hv⟩ := dictGet_some_mem _ _ _ h
      simpa [hv] using resolve_element_ok element p hp
  | none => simpa using style_attacks_of_ne ch element

theorem secondary_styles_of_ne (combat_styles : List String) :
    secondary_styles_of combat_styles ≠ [] := by
  unfold secondary_styles_of
  split
  · next h =>
      have : (combat_styles.drop 1).length = combat_styles.length - 1 := by
        simp [List.length_drop]
      intro hnil
      rw [hnil] at this
      simp at this
      omega
  · simp

/-- Structural form of `generate_contextual_attacks`: the guards on empty
template lists never fire, so the result is always the primary attack
followed by either the secondary offensive attack or a utility attack. -/
theorem gca_eq (ch : Characteristics) (element : String) (hp : ℤ) (rarity : String)
    (r : RngDraws) :
    generate_contextual_attacks ch element hp rarity r =
      [mk_primary (pyChoice (style_attacks_of ch element) generic_attack r.primaryDraw)
        (damage_mult_of rarity),
       if r.secondaryCoin < mkRat 7 10 then
         mk_secondary (pyChoice (secondary_attacks_of ch element) generic_attack r.secondaryDraw)
           (damage_mult_of rarity)
       else mk_utility (pyChoice (utility_attacks hp) ("Regenerate", 0, "") r.utilityDraw)] := by
  simp only [generate_contextual_attacks]
  rw [if_neg (style_attacks_of_ne ch element),
      if_neg (secondary_styles_of_ne ch.combat_styles),
      if_neg (secondary_attacks_of_ne ch element)]
  by_cases hc : r.secondaryCoin < mkRat 7 10
  · rw [if_pos hc, if_pos hc]
    rfl
  · rw [if_neg hc, if_neg hc]
    rfl

/-! ## Further helpers used by the claim theorems -/

theorem rarityOfScore_mono (s t : ℚ) (h : s ≤ t) :
    rarityRank (rarityOfScore s) ≤ rarityRank (rarityOfScore t) := by
  unfold rarityOfScore
  split_ifs <;> first | decide | linarith

theorem gsa_attacks_len (a : VisionAnalysis) (r : RngDraws) :
    (generate_stats_from_analysis a r).attacks.length = 2 := by
  show (generate_contextual_attacks a.creature_characteristics a.detected_element
    (final_hp_of a r) (rarity_of a) r).length = 2
  rw [gca_eq]
  rfl

theorem utility_damage_zero (hp : ℤ) (n : Nat) :
    (pyChoice (utility_attacks hp) ("Regenerate", 0, "") n).2.1 = 0 := by
  have h := pyChoice_mem (utility_attacks hp) ("Regenerate", 0, "") n (by simp [utility_attacks])
  simp only [utility_attacks, List.mem_cons, List.not_mem_nil, or_false] at h
  simp only [utility_attacks]
  rcases h with h | h | h <;> rw [h]

theorem decimal_07 : (0.7 : ℚ) = mkRat 7 10 := by
  norm_num [Rat.mkRat_eq_div]

theorem decimal_08 : (0.8 : ℚ) = mkRat 8 10 := by
  norm_num [Rat.mkRat_eq_div]

/-! ## Claim theorems -/

/-- Claim C1: for every prompt and every sequence of RNG draws, the hp field
of the produced CardMetadata is an integer with 20 ≤ hp ≤ 150, computed as
the integer truncation of base_hp times power_multiplier clamped to
[20,150], where base_hp is drawn uniformly from [40,100] when the weighted
coin (probability 0.8) hits and uniformly from [100,150] otherwise. -/
theorem claim_C1_hp (prompt : String) (r : RngDraws) :
    20 ≤ (synthesize prompt r).hp ∧ (synthesize prompt r).hp ≤ 150 ∧
    (synthesize prompt r).hp =
      max 20 (min 150 (pyInt ((base_hp_of r : ℚ) * power_multiplier_of prompt))) ∧
    (if r.hpCoin < 0.8 then 40 ≤ base_hp_of r ∧ base_hp_of r ≤ 100
     else 100 ≤ base_hp_of r ∧ base_hp_of r ≤ 150) := by
  refine ⟨?_, ?_, ?_, ?_⟩
  · show 20 ≤ max 20 (min 150 (pyInt (ratMul (base_hp_of r : ℚ) (power_multiplier_of prompt))))
    exact le_max_left _ _
  · show max 20 (min 150 (pyInt (ratMul (base_hp_of r : ℚ) (power_multiplier_of prompt)))) ≤ 150
    exact max_le (by norm_num) (min_le_left _ _)
  · show max 20 (min 150 (pyInt (ratMul (base_hp_of r : ℚ) (power_multiplier_of prompt)))) =
      max 20 (min 150 (pyInt ((base_hp_of r : ℚ) * power_multiplier_of prompt)))
    rw [ratMul_eq]
  · rw [decimal_08]
    unfold base_hp_of pyRandint
    by_cases h : r.hpCoin < mkRat 8 10
    · rw [if_pos h, if_pos h]
      exact ⟨by omega, by omega⟩
    · rw [if_neg h, if_neg h]
      exact ⟨by omega, by omega⟩

/-- Claim C2: for every prompt and every sequence of RNG draws, the attacks
field of the produced CardMetadata has length exactly 2. -/
theorem claim_C2_two_attacks (prompt : String) (r : RngDraws) :
    (synthesize prompt r).attacks.length = 2 :=
  gsa_attacks_len (simulate_vision_analysis "" prompt) r

/-- Claim C3: for every prompt the rarity equals the fixed threshold mapping
of rarity_score = complexity_score + 2·power_multiplier (≥12 Legendary,
≥9 Epic, ≥6 Rare, ≥4 Uncommon, else Common), and that mapping is a
monotonic non-decreasing step function of the score under the tier order
Common < Uncommon < Rare < Epic < Legendary. -/
theorem claim_C3_rarity (prompt : String) (r : RngDraws) :
    (synthesize prompt r).rarity =
      rarityOfScore ((complexity_score_of prompt : ℚ) + power_multiplier_of prompt * 2) ∧
    (∀ s t : ℚ, s ≤ t → rarityRank (rarityOfScore s) ≤ rarityRank (rarityOfScore t)) ∧
    rarityOfScore 12 = "Legendary" ∧ rarityOfScore 11 = "Epic" ∧ rarityOfScore 9 = "Epic" ∧
    rarityOfScore 8 = "Rare" ∧ rarityOfScore 6 = "Rare" ∧ rarityOfScore 5 = "Uncommon" ∧
    rarityOfScore 4 = "Uncommon" ∧ rarityOfScore 3 = "Common" := by
  refine ⟨?_, rarityOfScore_mono, by decide, by decide, by decide, by decide, by decide,
    by decide, by decide, by decide⟩
  show rarityOfScore (ratAdd ((complexity_score_of prompt : Nat) : ℚ)
    (ratMul (power_multiplier_of prompt) 2)) = _
  rw [ratAdd_eq, ratMul_eq]

/-- Witness for C3 at a concrete prompt, draw record and score pair. -/
theorem claim_C3_rarity_witness :
    (synthesize "a dragon" ⟨0, 0, 0, 0, 0, 0, 0, 0, 0⟩).rarity =
      rarityOfScore ((complexity_score_of "a dragon" : ℚ) + power_multiplier_of "a dragon" * 2) ∧
    rarityRank (rarityOfScore 5) ≤ rarityRank (rarityOfScore 10) :=
  ⟨(claim_C3_rarity "a dragon" ⟨0, 0, 0, 0, 0, 0, 0, 0, 0⟩).1,
   (claim_C3_rarity "a dragon" ⟨0, 0, 0, 0, 0, 0, 0, 0, 0⟩).2.1 5 10 (by decide)⟩

/-- Claim C4: synthesis is a pure function of (prompt, RNG draws) — running
it twice on the same prompt with the same draw sequence yields identical
CardMetadata records in every field. -/
theorem claim_C4_determinism (p1 p2 : String) (r1 r2 : RngDraws)
    (hprompt : p1 = p2) (hdraws : r1 = r2) :
    synthesize p1 r1 = synthesize p2 r2 ∧
    (synthesize p1 r1).name = (synthesize p2 r2).name ∧
    (synthesize p1 r1).hp = (synthesize p2 r2).hp ∧
    (synthesize p1 r1).type = (synthesize p2 r2).type ∧
    (synthesize p1 r1).rarity = (synthesize p2 r2).rarity ∧
    (synthesize p1 r1).flavorText = (synthesize p2 r2).flavorText ∧
    (synthesize p1 r1).attacks = (synthesize p2 r2).attacks := by
  subst hprompt
  subst hdraws
  exact ⟨rfl, rfl, rfl, rfl, rfl, rfl, rfl⟩

/-- Witness for C4 at a concrete prompt and draw record. -/
theorem claim_C4_determinism_witness :
    synthesize "a tiny fire dragon" ⟨0, 0, 0, 0, 0, 0, 0, 0, 0⟩ =
      synthesize "a tiny fire dragon" ⟨0, 0, 0, 0, 0, 0, 0, 0, 0⟩ ∧
    (synthesize "a tiny fire dragon" ⟨0, 0, 0, 0, 0, 0, 0, 0, 0⟩).name =
      (synthesize "a tiny fire dragon" ⟨0, 0, 0, 0, 0, 0, 0, 0, 0⟩).name ∧
    (synthesize "a tiny fire dragon" ⟨0, 0, 0, 0, 0, 0, 0, 0, 0⟩).hp =
      (synthesize "a tiny fire dragon" ⟨0, 0, 0, 0, 0, 0, 0, 0, 0⟩).hp ∧
    (synthesize "a tiny fire dragon" ⟨0, 0, 0, 0, 0, 0, 0, 0, 0⟩).type =
      (synthesize "a tiny fire dragon" ⟨0, 0, 0, 0, 0, 0, 0, 0, 0⟩).type ∧
    (synthesize "a tiny fire dragon" ⟨0, 0, 0, 0, 0, 0, 0, 0, 0⟩).rarity =
      (synthesize "a tiny fire dragon" ⟨0, 0, 0, 0, 0, 0, 0, 0, 0⟩).rarity ∧
    (synthesize "a tiny fire dragon" ⟨0, 0, 0, 0, 0, 0, 0, 0, 0⟩).flavorText =
      (synthesize "a tiny fire dragon" ⟨0, 0, 0, 0, 0, 0, 0, 0, 0⟩).flavorText ∧
    (synthesize "a tiny fire dragon" ⟨0, 0, 0, 0, 0, 0, 0, 0, 0⟩).attacks =
      (synthesize "a tiny fire dragon" ⟨0, 0, 0, 0, 0, 0, 0, 0, 0⟩).attacks :=
  claim_C4_determinism _ _ _ _ rfl rfl

/-- Claim C9: the descriptor tokens influence no scored output — two
analyses that differ only in the descriptors sequence produce, for the same
RNG draws, identical hp, rarity, element (type), name and attacks. -/
theorem claim_C9_descriptors (a : VisionAnalysis) (d1 d2 : List String) (r : RngDraws) :
    (generate_stats_from_analysis (withDescriptors a d1) r).hp =
      (generate_stats_from_analysis (withDescriptors a d2) r).hp ∧
    (generate_stats_from_analysis (withDescriptors a d1) r).rarity =
      (generate_stats_from_analysis (withDescriptors a d2) r).rarity ∧
    (generate_stats_from_analysis (withDescriptors a d1) r).type =
      (generate_stats_from_analysis (withDescriptors a d2) r).type ∧
    (generate_stats_from_analysis (withDescriptors a d1) r).name =
      (generate_stats_from_analysis (withDescriptors a d2) r).name ∧
    (generate_stats_from_analysis (withDescriptors a d1) r).attacks =
      (generate_stats_from_analysis (withDescriptors a d2) r).attacks :=
  ⟨rfl, rfl, rfl, rfl, rfl⟩

/-- Claim C5 (amended): power_multiplier equals the multiplier of the first
entry of the fixed ordered size-keyword table whose keyword occurs in the
lower-cased prompt, and 1.0 if none occurs; in particular a prompt
containing both "massive" and "ancient" and no size keyword earlier in the
table gets multiplier 1.8 regardless of where the two words stand in the
prompt, as on both word orders of Scenario 3's prompt. -/
theorem claim_C5_power_first_match :
    (∀ prompt : String,
      (simulate_vision_analysis "" prompt).apparent_power_level = power_multiplier_of prompt) ∧
    (∀ prompt : String,
      (∀ kv ∈ size_indicators, containsKw (toLowerStr prompt) kv.1 = false) →
      power_multiplier_of prompt = 1) ∧
    (∀ (prompt : String) (pre : List (String × ℚ)) (kv : String × ℚ)
        (post : List (String × ℚ)),
      size_indicators = pre ++ kv :: post →
      containsKw (toLowerStr prompt) kv.1 = true →
      (∀ e ∈ pre, containsKw (toLowerStr prompt) e.1 = false) →
      power_multiplier_of prompt = kv.2) ∧
    power_multiplier_of "legendary ancient massive dragon" = 1.8 ∧
    power_multiplier_of "legendary massive ancient dragon" = 1.8 := by
  have h18 : (1.8 : ℚ) = mkRat 18 10 := by norm_num [Rat.mkRat_eq_div]
  refine ⟨fun _ => rfl, ?_, ?_, by rw [h18]; decide, by rw [h18]; decide⟩
  · intro prompt h
    unfold power_multiplier_of
    rw [firstMatch_eq_none _ _ h]
    rfl
  · intro prompt pre kv post htbl hm hpre
    unfold power_multiplier_of
    rw [htbl, firstMatch_eq_of_split _ _ _ _ hm hpre]
    rfl

/-- Counterexample to claim C5 as stated: "small massive ancient dragon"
contains both "massive" and "ancient", yet its multiplier is 0.5 (from
"small", which stands earlier in the table), not 1.8. -/
theorem claim_C5_counterexample :
    containsKw (toLowerStr "small massive ancient dragon") "massive" = true ∧
    containsKw (toLowerStr "small massive ancient dragon") "ancient" = true ∧
    power_multiplier_of "small massive ancient dragon" = 0.5 ∧
    (0.5 : ℚ) ≠ 1.8 := by
  have h05 : (0.5 : ℚ) = mkRat 5 10 := by norm_num [Rat.mkRat_eq_div]
  refine ⟨by decide, by decide, by rw [h05]; decide, by norm_num⟩

/-- Witness for C5 at concrete prompts. -/
theorem claim_C5_witness :
    power_multiplier_of "xyz qqq" = 1 ∧
    power_multiplier_of "legendary ancient massive dragon" = 1.8 :=
  ⟨claim_C5_power_first_match.2.1 "xyz qqq" (by decide),
   claim_C5_power_first_match.2.2.2.1⟩

/-- Claim C6: on a prompt containing no archetype keyword, no element
keyword and no combat-style keyword, classification degrades to the
documented defaults: archetype "beast", element "Fire" and combat_styles
exactly ["physical"] (the classification functions are total, so no
classification step can fail). -/
theorem claim_C6_defaults (prompt : String)
    (hA : ∀ p ∈ creature_types, ∀ kw ∈ p.2, containsKw (toLowerStr prompt) kw = false)
    (hE : ∀ p ∈ element_keywords, ∀ kw ∈ p.2, containsKw (toLowerStr prompt) kw = false)
    (h1 : ∀ kw ∈ slashing_cues, containsKw (toLowerStr prompt) kw = false)
    (h2 : ∀ kw ∈ fire_cues, containsKw (toLowerStr prompt) kw = false)
    (h3 : ∀ kw ∈ magic_cues, containsKw (toLowerStr prompt) kw = false)
    (h4 : ∀ kw ∈ biting_cues, containsKw (toLowerStr prompt) kw = false) :
    (extract_creature_characteristics prompt).creature_type = "beast" ∧
    (extract_creature_characteristics prompt).combat_styles = ["physical"] ∧
    detected_element_of prompt = "Fire" := by
  have hstyles : combat_styles_of (toLowerStr prompt) = [] := by
    unfold combat_styles_of
    have e1 : slashing_cues.any (fun w => containsKw (toLowerStr prompt) w) = false :=
      List.any_eq_false.mpr fun w hw => by simp [h1 w hw]
    have e2 : fire_cues.any (fun w => containsKw (toLowerStr prompt) w) = false :=
      List.any_eq_false.mpr fun w hw => by simp [h2 w hw]
    have e3 : magic_cues.any (fun w => containsKw (toLowerStr prompt) w) = false :=
      List.any_eq_false.mpr fun w hw => by simp [h3 w hw]
    have e4 : biting_cues.any (fun w => containsKw (toLowerStr prompt) w) = false :=
      List.any_eq_false.mpr fun w hw => by simp [h4 w hw]
    rw [e1, e2, e3, e4]
    rfl
  refine ⟨?_, ?_, ?_⟩
  · show (firstMatchAny (toLowerStr prompt) creature_types).getD "beast" = "beast"
    rw [firstMatchAny_eq_none _ _ hA]
    rfl
  · show (if combat_styles_of (toLowerStr prompt) = [] then ["physical"]
          else combat_styles_of (toLowerStr prompt)) = ["physical"]
    rw [if_pos hstyles]
  · unfold detected_element_of
    rw [firstMatchAny_eq_none _ _ hE]

/-- Witness for C6 on the spec's Scenario 2 prompt "xyz qqq". -/
theorem claim_C6_defaults_witness :
    (extract_creature_characteristics "xyz qqq").creature_type = "beast" ∧
    (extract_creature_characteristics "xyz qqq").combat_styles = ["physical"] ∧
    detected_element_of "xyz qqq" = "Fire" :=
  claim_C6_defaults "xyz qqq" (by decide) (by decide) (by decide) (by decide)
    (by decide) (by decide)

/-- Claim C7 (amended): when the secondary attack takes the offensive branch
(the 0.7-probability coin) and the chosen secondary combat style has no
template list for the card's element, the secondary template is drawn from
`style_attacks` — the PRIMARY attack's already-resolved template list (the
primary style's own list when that was present; the element's physical list
or the generic only entered through the primary's resolution) — not from
the element's physical list afresh. -/
theorem claim_C7_secondary_fallback (ch : Characteristics) (element : String) (hp : ℤ)
    (rarity : String) (r : RngDraws)
    (hc : r.secondaryCoin < 0.7)
    (habs : dictGet (resolve_element_attacks element) (secondary_style_of ch) = none) :
    generate_contextual_attacks ch element hp rarity r =
      [mk_primary (pyChoice (style_attacks_of ch element) generic_attack r.primaryDraw)
        (damage_mult_of rarity),
       mk_secondary (pyChoice (style_attacks_of ch element) generic_attack r.secondaryDraw)
        (damage_mult_of rarity)] := by
  rw [decimal_07] at hc
  rw [gca_eq, if_pos hc]
  have hfall : secondary_attacks_of ch element = style_attacks_of ch element := by
    unfold secondary_attacks_of
    rw [habs]
    rfl
  rw [hfall]

/-- Counterexample to claim C7 as stated: for "sharp burning rock" the card
is Earth with styles [slashing, fire]; "fire" has no Earth template list,
the given draws take the offensive branch, and the secondary attack is
"Stone Claw" — drawn from the primary's slashing list — although Earth's
physical list holds only "Boulder Throw" and the generic is "Strike". -/
theorem claim_C7_counterexample :
    detected_element_of "sharp burning rock" = "Earth" ∧
    (extract_creature_characteristics "sharp burning rock").combat_styles =
      ["slashing", "fire"] ∧
    secondary_style_of (extract_creature_characteristics "sharp burning rock") = "fire" ∧
    dictGet (resolve_element_attacks "Earth") "fire" = none ∧
    (dictGet (resolve_element_attacks "Earth") "physical").getD [] =
      [("Boulder Throw", 45, "Hurls massive rocks")] ∧
    (0 : ℚ) < 0.7 ∧
    ((synthesize "sharp burning rock" ⟨0, 0, 0, 0, 0, 0, 0, 0, 0⟩).attacks.getD 1
      dfltAtk).name = "Stone Claw" ∧
    ("Stone Claw" : String) ≠ "Boulder Throw" ∧
    ("Stone Claw" : String) ≠ "Strike" :=
  ⟨by decide, by decide, by decide, by decide, by decide,
   by rw [decimal_07]; decide, by decide, by decide, by decide⟩

/-- Witness for C7 (amended) on the counterexample's concrete card. -/
theorem claim_C7_secondary_fallback_witness :
    generate_contextual_attacks (extract_creature_characteristics "sharp burning rock")
        "Earth" 40 "Uncommon" ⟨0, 0, 0, 0, 0, 0, 0, 0, 0⟩ =
      [mk_primary
        (pyChoice (style_attacks_of (extract_creature_characteristics "sharp burning rock")
          "Earth") generic_attack 0) (damage_mult_of "Uncommon"),
       mk_secondary
        (pyChoice (style_attacks_of (extract_creature_characteristics "sharp burning rock")
          "Earth") generic_attack 0) (damage_mult_of "Uncommon")] :=
  claim_C7_secondary_fallback _ "Earth" 40 "Uncommon" _
    (by rw [decimal_07]; decide) (by decide)

/-- Claim C8: for every generated card, the primary attack's damage is
max(15, int(base_damage × rarity_multiplier)) with the multiplier table
Common 0.9, Uncommon 1.0, Rare 1.1, Epic 1.2, Legendary 1.3; an offensive
secondary attack's damage is max(10, int(base_damage × rarity_multiplier ×
0.8)); a utility secondary attack's damage is 0; hence every attack's
damage is an integer ≥ 0. -/
theorem claim_C8_damage (a : VisionAnalysis) (r : RngDraws) :
    ((generate_stats_from_analysis a r).attacks.getD 0 dfltAtk).damage =
      max 15 (pyInt
        (((pyChoice (style_attacks_of a.creature_characteristics a.detected_element)
            generic_attack r.primaryDraw).2.1 : ℚ) * damage_mult_of (rarity_of a))) ∧
    (if r.secondaryCoin < 0.7 then
      ((generate_stats_from_analysis a r).attacks.getD 1 dfltAtk).damage =
        max 10 (pyInt
          (((pyChoice (secondary_attacks_of a.creature_characteristics a.detected_element)
              generic_attack r.secondaryDraw).2.1 : ℚ) * damage_mult_of (rarity_of a) * 0.8))
     else ((generate_stats_from_analysis a r).attacks.getD 1 dfltAtk).damage = 0) ∧
    damage_mult_of "Common" = 0.9 ∧ damage_mult_of "Uncommon" = 1.0 ∧
    damage_mult_of "Rare" = 1.1 ∧ damage_mult_of "Epic" = 1.2 ∧
    damage_mult_of "Legendary" = 1.3 ∧
    ∀ atk ∈ (generate_stats_from_analysis a r).attacks, 0 ≤ atk.damage := by
  rw [decimal_07, decimal_08,
      show (generate_stats_from_analysis a r).attacks =
        generate_contextual_attacks a.creature_characteristics a.detected_element
          (final_hp_of a r) (rarity_of a) r from rfl,
      gca_eq]
  refine ⟨?_, ?_, ?_, ?_, ?_, ?_, ?_, ?_⟩
  · simp only [List.getD_cons_zero, mk_primary]
    rw [ratMul_eq]
  · by_cases hc : r.secondaryCoin < mkRat 7 10
    · rw [if_pos hc, if_pos hc]
      simp only [List.getD_cons_succ, List.getD_cons_zero, mk_secondary]
      rw [ratMul_eq, ratMul_eq]
    · rw [if_neg hc, if_neg hc]
      simp only [List.getD_cons_succ, List.getD_cons_zero, mk_utility]
      exact utility_damage_zero _ _
  · rw [show (0.9 : ℚ) = mkRat 9 10 from by norm_num [Rat.mkRat_eq_div]]
    decide
  · rw [show (1.0 : ℚ) = 1 from by norm_num]
    decide
  · rw [show (1.1 : ℚ) = mkRat 11 10 from by norm_num [Rat.mkRat_eq_div]]
    decide
  · rw [show (1.2 : ℚ) = mkRat 12 10 from by norm_num [Rat.mkRat_eq_div]]
    decide
  · rw [show (1.3 : ℚ) = mkRat 13 10 from by norm_num [Rat.mkRat_eq_div]]
    decide
  · intro atk hatk
    rcases List.mem_cons.mp hatk with h | h
    · rw [h]
      exact le_trans (by norm_num) (le_max_left 15 _)
    · rw [List.mem_singleton.mp h]
      by_cases hc : r.secondaryCoin < mkRat 7 10
      · rw [if_pos hc]
        exact le_trans (by norm_num) (le_max_left 10 _)
      · rw [if_neg hc]
        exact le_of_eq (utility_damage_zero _ _).symm

/-- Witness for C8 on a concrete card's attacks. -/
theorem claim_C8_damage_witness :
    0 ≤ ((generate_stats_from_analysis (simulate_vision_analysis "" "a tiny fire dragon")
      ⟨0, 0, 0, 0, 0, 0, 0, 0, 0⟩).attacks.getD 0 dfltAtk).damage :=
  (claim_C8_damage (simulate_vision_analysis "" "a tiny fire dragon")
    ⟨0, 0, 0, 0, 0, 0, 0, 0, 0⟩).2.2.2.2.2.2.2 _ (by decide)

/-- Claim C10: for every analysis classified as archetype "demon", "angel"
or "undead", the flavor text is drawn uniformly from the "beast" template
list, because the flavor-template table maps only dragon, wolf, bird, beast
and elemental, and all other archetypes fall through to the beast default. -/
theorem claim_C10_flavor (a : VisionAnalysis) (r : RngDraws)
    (h : a.creature_characteristics.creature_type = "demon" ∨
         a.creature_characteristics.creature_type = "angel" ∨
         a.creature_characteristics.creature_type = "undead") :
    (generate_stats_from_analysis a r).flavorText = pyChoice beast_flavor "" r.flavorDraw ∧
    (generate_stats_from_analysis a r).flavorText ∈ beast_flavor ∧
    dictGet flavor_templates "demon" = none ∧
    dictGet flavor_templates "angel" = none ∧
    dictGet flavor_templates "undead" = none := by
  have key : (dictGet flavor_templates a.creature_characteristics.creature_type).getD
      beast_flavor = beast_flavor := by
    rcases h with h | h | h <;> rw [h] <;> decide
  refine ⟨?_, ?_, by decide, by decide, by decide⟩
  · show pyChoice ((dictGet flavor_templates a.creature_characteristics.creature_type).getD
      beast_flavor) "" r.flavorDraw = pyChoice beast_flavor "" r.flavorDraw
    rw [key]
  · show pyChoice ((dictGet flavor_templates a.creature_characteristics.creature_type).getD
      beast_flavor) "" r.flavorDraw ∈ beast_flavor
    rw [key]
    exact pyChoice_mem _ _ _ (by simp [beast_flavor])

/-- Witness for C10 on a concrete demon card. -/
theorem claim_C10_flavor_witness :
    (generate_stats_from_analysis (simulate_vision_analysis "" "a demon lord")
      ⟨0, 0, 0, 0, 0, 0, 0, 0, 0⟩).flavorText = pyChoice beast_flavor "" 0 :=
  (claim_C10_flavor (simulate_vision_analysis "" "a demon lord")
    ⟨0, 0, 0, 0, 0, 0, 0, 0, 0⟩ (Or.inl (by decide))).1
